import Mathlib

/-!
Shallow embedding of the LLM Router (`src/core/llm_router.py`) and proofs of the
frozen specification claims about it.

Modelling conventions:
* Python floats are modelled as rationals (`ℚ`); machine time (`time.time()`)
  and dates (`datetime.now().date()`) are passed in explicitly as `now : ℚ`
  and `today : Nat`, `datetime.now().isoformat()` as a string argument.
* The stateful router object becomes explicit state passing on `RouterState`.
* Network provider calls are absorbed by an oracle
  `Nat → Provider → CallOutcome` giving the outcome of the k-th call made in a
  `generate` invocation; a global call counter `k` is threaded so that "number
  of provider calls attempted" is observable. `CallOutcome.fail` covers both
  `asyncio.TimeoutError` and any other exception (the code treats them alike).
* The recursive `_fallback_generate` can genuinely diverge, so it takes fuel;
  exhausted fuel yields the distinguished `GenResult.diverge`.
-/

set_option maxHeartbeats 1000000
set_option autoImplicit false

namespace LLMRouter

/-- The `LLMProvider` enum. -/
inductive Provider
  | anthropic
  | gemini
  | perplexity
  | openai
deriving DecidableEq, Repr

/-- String value of the provider enum member. -/
def providerName : Provider → String
  | .anthropic => "anthropic"
  | .gemini => "gemini"
  | .perplexity => "perplexity"
  | .openai => "openai"

/-- One entry of `providers_config` (from `_load_provider_configs`). -/
structure ProviderConfig where
  api_key : Option String
  model : String
  enabled : Bool
  max_tokens : Nat
deriving DecidableEq, Repr

/-- One entry of the static `rate_limits` table. -/
structure RateLimit where
  requests_per_minute : Nat
  tokens_per_minute : Nat
deriving DecidableEq, Repr

/-- The static `self.rate_limits` table from `__init__`; never mutated. -/
def rate_limits : Provider → RateLimit
  | .anthropic => ⟨50, 40000⟩
  | .gemini => ⟨60, 32000⟩
  | .perplexity => ⟨20, 10000⟩
  | .openai => ⟨60, 90000⟩

/-- The static `cost_per_million` table from `_record_cost` (USD per 1M tokens). -/
def cost_per_million : Provider → ℚ
  | .anthropic => 3
  | .gemini => 5/4
  | .perplexity => 1
  | .openai => 30

/-- `self.circuit_breaker_threshold`, set to the constant 5 in `__init__`. -/
def circuit_breaker_threshold : Nat := 5

/-- `self.circuit_breaker_reset_time`, set to the constant 300 in `__init__`. -/
def circuit_breaker_reset_time : ℚ := 300

/-- One entry of `usage_history`. -/
structure UsageRecord where
  provider : Provider
  timestamp : String
  success : Bool
deriving DecidableEq, Repr

/-- The mutable instance state of `LLMRouter`.  The `timeout` and
`retry_delays` attributes only feed `asyncio` sleeps/timeouts, which have no
observable effect in this model, so they are omitted. -/
structure RouterState where
  enable_openai : Bool
  perplexity_search_only : Bool
  dry_run : Bool
  daily_max_cost : ℚ
  daily_cost_used : ℚ
  cost_reset_date : Nat
  max_retries : Nat
  priority : List Provider
  providers_config : Provider → ProviderConfig
  usage_stats : Provider → Nat
  usage_history : List UsageRecord
  request_timestamps : Provider → List ℚ
  error_counts : Provider → Nat
  circuit_breaker_timers : Provider → Option ℚ

/-- `collections.deque(maxlen := cap)` append: when full, the oldest entry is
evicted from the front. -/
def dequeAppend {α : Type} (cap : Nat) (xs : List α) (x : α) : List α :=
  if cap ≤ xs.length then xs.drop (xs.length + 1 - cap) ++ [x] else xs ++ [x]

/-- `get_available_providers`: the priority list filtered by the `enabled`
flag of each provider's config. -/
def get_available_providers (st : RouterState) : List Provider :=
  st.priority.filter (fun p => (st.providers_config p).enabled)

/-- `_is_circuit_breaker_open`: returns whether the breaker is open at time
`now`, lazily closing it (clearing the timer and resetting the error count)
when the reset window has elapsed. -/
def is_circuit_breaker_open (now : ℚ) (st : RouterState) (p : Provider) :
    Bool × RouterState :=
  match st.circuit_breaker_timers p with
  | none => (false, st)
  | some timer =>
    if now - timer > circuit_breaker_reset_time then
      (false,
       { st with
           circuit_breaker_timers := Function.update st.circuit_breaker_timers p none,
           error_counts := Function.update st.error_counts p 0 })
    else
      (true, st)

/-- Pure reading of the breaker check's verdict (no state change). -/
def breaker_open_pure (now : ℚ) (st : RouterState) (p : Provider) : Bool :=
  match st.circuit_breaker_timers p with
  | none => false
  | some timer => if now - timer > circuit_breaker_reset_time then false else true

/-- The staleness test of `_check_rate_limit`: an entry older than 60 seconds. -/
def stale (now t : ℚ) : Bool := decide (now - t > 60)

/-- `_check_rate_limit`: prunes stale timestamps from the front of the deque
(the `while ... popleft()` loop, i.e. `dropWhile`), then allows the provider iff
the remaining count is below its requests-per-minute ceiling.  The pruned deque
is written back (the Python loop mutates the deque in place). -/
def check_rate_limit (now : ℚ) (st : RouterState) (p : Provider) :
    Bool × RouterState :=
  let timestamps := (st.request_timestamps p).dropWhile (fun t => stale now t)
  let st' := { st with
      request_timestamps := Function.update st.request_timestamps p timestamps }
  (decide (timestamps.length < (rate_limits p).requests_per_minute), st')

/-- Pure reading of the rate-limit verdict. -/
def under_rate_pure (now : ℚ) (st : RouterState) (p : Provider) : Bool :=
  decide (((st.request_timestamps p).dropWhile (fun t => stale now t)).length
    < (rate_limits p).requests_per_minute)

/-- `_check_daily_budget`: lazily rolls the accumulated cost over to zero when
the date has advanced, then denies (returns `false`) iff the accumulated cost
has reached the daily ceiling.  Note: no per-call cost estimate is involved. -/
def check_daily_budget (today : Nat) (st : RouterState) : Bool × RouterState :=
  let st1 :=
    if st.cost_reset_date < today then
      { st with daily_cost_used := 0, cost_reset_date := today }
    else st
  if st1.daily_max_cost ≤ st1.daily_cost_used then (false, st1) else (true, st1)

/-- `_record_cost`: adds `(tokens / 1_000_000) * rate` to the daily total,
with the rate drawn from the static `cost_per_million` table. -/
def record_cost (p : Provider) (tokens : Nat) (st : RouterState) : RouterState :=
  { st with
      daily_cost_used :=
        st.daily_cost_used + ((tokens : ℚ) / 1000000) * cost_per_million p }

/-- `_get_mock_response`.  The real templates are long multi-line strings; the
model keeps their distinguishing structure (search vs. general template, the
provider name, the truncated prompt prefix) which is all any claim observes. -/
def get_mock_response (prompt : String) (provider : String)
    (task_type : Option String) : String :=
  if task_type = some "search" then
    "[MOCK SEARCH RESULT] Provider: " ++ provider ++ " Query: "
      ++ prompt.take 100 ++ " (DRY_RUN mock search result)"
  else
    "[MOCK LLM RESPONSE] Provider: " ++ provider ++ " Task Type: "
      ++ (task_type.getD "general") ++ " Prompt: " ++ prompt.take 100
      ++ " (DRY_RUN mock response)"

/-- The preferred-provider block at the top of `select_provider`.  Returns
`(some p, st')` when the preferred provider is accepted and returned
immediately, `(none, st')` when selection falls through (the Python code sets
`preferred_provider = None` or just drops out of the `if`/`elif` chain). -/
def preferred_step (now : ℚ) (preferred_provider : Option Provider)
    (task_type : Option String) (st : RouterState) :
    Option Provider × RouterState :=
  match preferred_provider with
  | none => (none, st)
  | some p =>
    if p = Provider.openai ∧ st.enable_openai = false then (none, st)
    else if p = Provider.perplexity ∧ st.perplexity_search_only = true
        ∧ task_type ≠ some "search" then (none, st)
    else if (st.providers_config p).enabled then
      let r := is_circuit_breaker_open now st p
      if r.1 then (none, r.2) else (some p, r.2)
    else (none, st)

/-- The `task_type == "search"` affinity block of `select_provider`: return
the search provider immediately when it is in the priority list, enabled, and
its breaker is closed (the breaker check short-circuits after the `and`s). -/
def search_step (now : ℚ) (task_type : Option String) (st : RouterState) :
    Option Provider × RouterState :=
  if task_type = some "search" then
    if Provider.perplexity ∈ st.priority then
      if (st.providers_config Provider.perplexity).enabled then
        let r := is_circuit_breaker_open now st Provider.perplexity
        if r.1 then (none, r.2) else (some Provider.perplexity, r.2)
      else (none, st)
    else (none, st)
  else (none, st)

/-- The breaker filter `[p for p in available if not self._is_circuit_breaker_open(p)]`,
threading the state left to right. -/
def filter_breaker (now : ℚ) (st : RouterState) :
    List Provider → List Provider × RouterState
  | [] => ([], st)
  | p :: ps =>
    let r := is_circuit_breaker_open now st p
    let rest := filter_breaker now r.2 ps
    (if r.1 then rest.1 else p :: rest.1, rest.2)

/-- The rate filter `[p for p in available if self._check_rate_limit(p)]`,
threading the state left to right. -/
def filter_rate (now : ℚ) (st : RouterState) :
    List Provider → List Provider × RouterState
  | [] => ([], st)
  | p :: ps =>
    let r := check_rate_limit now st p
    let rest := filter_rate now r.2 ps
    (if r.1 then p :: rest.1 else rest.1, rest.2)

/-- The priority-order pass of `select_provider`: availability filter,
search-only exclusion, breaker filter, rate filter, head of the remainder. -/
def priority_step (now : ℚ) (task_type : Option String) (st : RouterState) :
    Option Provider × RouterState :=
  let available := get_available_providers st
  let available :=
    if st.perplexity_search_only = true ∧ task_type ≠ some "search" then
      available.filter (fun p => decide (p ≠ Provider.perplexity))
    else available
  let rb := filter_breaker now st available
  let rr := filter_rate now rb.2 rb.1
  match rr.1 with
  | [] => (none, rr.2)
  | selected :: _ => (some selected, rr.2)

/-- `select_provider`: preferred-provider short circuit, then search affinity,
then the priority-order pass. -/
def select_provider (now : ℚ) (preferred_provider : Option Provider)
    (task_type : Option String) (st : RouterState) :
    Option Provider × RouterState :=
  match preferred_step now preferred_provider task_type st with
  | (some p, st1) => (some p, st1)
  | (none, st1) =>
    match search_step now task_type st1 with
    | (some p, st2) => (some p, st2)
    | (none, st2) => priority_step now task_type st2

/-- `_record_error`: bump the consecutive-failure count, append a failure
record to the history, and open the breaker (recording the open time) once the
count has reached the threshold. -/
def record_error (now : ℚ) (now_iso : String) (p : Provider)
    (st : RouterState) : RouterState :=
  let ec := st.error_counts p + 1
  let st1 := { st with
      error_counts := Function.update st.error_counts p ec,
      usage_history := dequeAppend 1000 st.usage_history ⟨p, now_iso, false⟩ }
  if circuit_breaker_threshold ≤ ec then
    { st1 with
        circuit_breaker_timers :=
          Function.update st1.circuit_breaker_timers p (some now) }
  else st1

/-- Outcome of one provider call, supplied by the oracle.  `fail` covers both
`asyncio.TimeoutError` and any other exception: the retry loop treats them
identically. -/
inductive CallOutcome
  | ok (text : String)
  | fail
deriving DecidableEq, Repr

/-- The success dictionary returned by `generate` / `_fallback_generate`.
Optional fields model dictionary keys that are present only on some paths;
`estimated_cost` keeps the numeric value of the `f"${...:.4f}"` string. -/
structure GenSuccess where
  provider : Provider
  result : String
  timestamp : String
  retries : Option Nat := none
  dry_run : Bool := false
  cost : Option String := none
  estimated_cost : Option ℚ := none
  fallback_from : Option Provider := none
deriving DecidableEq, Repr

/-- Result of `generate`.  Error constructors carry the figures the Python
error strings embed.  `diverge` marks fuel exhaustion of the (potentially
non-terminating) fallback recursion. -/
inductive GenResult
  | success (s : GenSuccess)
  | error_no_provider
  | error_budget (used limit : ℚ)
  | error_all_failed (last : Provider)
  | diverge
deriving DecidableEq, Repr

/-- Discriminator: is this result a success dictionary? -/
def GenResult.isSuccess : GenResult → Bool
  | .success _ => true
  | _ => false

/-- `estimated_tokens = max_tokens or 4096` (Python `or`: `None` and `0` are
both falsy). -/
def estimated_tokens (max_tokens : Option Nat) : Nat :=
  match max_tokens with
  | none => 4096
  | some 0 => 4096
  | some t => t

/-- The success bookkeeping of the `generate` retry loop: bump `usage_stats`,
append a success record to the history, append the current time to the
provider's timestamp deque, record the estimated cost, reset the error count. -/
def record_success (now : ℚ) (now_iso : String) (p : Provider)
    (max_tokens : Option Nat) (st : RouterState) : RouterState :=
  let st1 := { st with
      usage_stats := Function.update st.usage_stats p (st.usage_stats p + 1),
      usage_history := dequeAppend 1000 st.usage_history ⟨p, now_iso, true⟩,
      request_timestamps :=
        Function.update st.request_timestamps p
          (dequeAppend 100 (st.request_timestamps p) now) }
  let st2 := record_cost p (estimated_tokens max_tokens) st1
  { st2 with error_counts := Function.update st2.error_counts p 0 }

/-- The retry loop of `generate` (`for retry in range(self.max_retries)`).
`remaining` counts attempts left, `retry` is the current attempt index, `k` the
global call counter.  Returns `none` when all retries are exhausted (the
caller then falls back); on the last failed attempt `_record_error` runs.
The reported `estimated_cost` hardcodes the rate 3.0 (the Python f-string
`(estimated_tokens / 1_000_000) * 3.0`), independent of the provider. -/
def retry_loop (now : ℚ) (now_iso : String)
    (oracle : Nat → Provider → CallOutcome) (p : Provider)
    (max_tokens : Option Nat) :
    Nat → Nat → Nat → RouterState → Option GenSuccess × RouterState × Nat
  | 0, _, k, st => (none, st, k)
  | remaining + 1, retry, k, st =>
    match oracle k p with
    | .ok text =>
      (some { provider := p, result := text, timestamp := now_iso,
              retries := some retry,
              estimated_cost :=
                some (((estimated_tokens max_tokens : ℚ) / 1000000) * 3) },
       record_success now now_iso p max_tokens st, k + 1)
    | .fail =>
      if remaining = 0 then (none, record_error now now_iso p st, k + 1)
      else retry_loop now now_iso oracle p max_tokens remaining (retry + 1) (k + 1) st

/-- `_fallback_generate`: recompute the available list minus the failed
provider; if empty, error out.  Otherwise make one direct call on the first
remaining provider; on success only `usage_stats` is bumped and the result is
tagged with `fallback_from`; on failure recurse excluding (only) the newly
failed provider when more than one candidate remained, else error out. -/
def fallback_generate (now_iso : String)
    (oracle : Nat → Provider → CallOutcome) :
    Nat → Provider → Nat → RouterState → GenResult × RouterState × Nat
  | 0, _, k, st => (.diverge, st, k)
  | fuel + 1, failed_provider, k, st =>
    let available :=
      (get_available_providers st).filter (fun p => decide (p ≠ failed_provider))
    match available with
    | [] => (.error_all_failed failed_provider, st, k)
    | next_provider :: _ =>
      match oracle k next_provider with
      | .ok text =>
        (.success { provider := next_provider, result := text,
                    timestamp := now_iso,
                    fallback_from := some failed_provider },
         { st with
             usage_stats :=
               Function.update st.usage_stats next_provider
                 (st.usage_stats next_provider + 1) },
         k + 1)
      | .fail =>
        if 1 < available.length then
          fallback_generate now_iso oracle fuel next_provider (k + 1) st
        else
          (.error_all_failed next_provider, st, k + 1)

/-- `generate`: select a provider (error when none); in dry-run mode return
the mock response immediately; otherwise check the daily budget (error when
denied), run the retry loop, and fall back when all retries failed. -/
def generate (now : ℚ) (today : Nat) (now_iso : String) (fuel : Nat)
    (oracle : Nat → Provider → CallOutcome) (k : Nat)
    (prompt : String) (max_tokens : Option Nat)
    (preferred_provider : Option Provider) (task_type : Option String)
    (st : RouterState) : GenResult × RouterState × Nat :=
  match select_provider now preferred_provider task_type st with
  | (none, st1) => (.error_no_provider, st1, k)
  | (some provider, st1) =>
    if st1.dry_run then
      (.success { provider := provider,
                  result := get_mock_response prompt (providerName provider) task_type,
                  timestamp := now_iso, dry_run := true, cost := some "$0.00" },
       st1, k)
    else
      match check_daily_budget today st1 with
      | (false, st2) => (.error_budget st2.daily_cost_used st2.daily_max_cost, st2, k)
      | (true, st2) =>
        match retry_loop now now_iso oracle provider max_tokens st2.max_retries 0 k st2 with
        | (some s, st3, k3) => (.success s, st3, k3)
        | (none, st3, k3) => fallback_generate now_iso oracle fuel provider k3 st3

/-- `set_priority`: replace the priority order, stripping the opt-in-gated
provider when opt-in is not granted. -/
def set_priority (priority : List Provider) (st : RouterState) : RouterState :=
  let priority :=
    if st.enable_openai then priority
    else priority.filter (fun p => decide (p ≠ Provider.openai))
  { st with priority := priority }

/-- `enable_provider`: for the opt-in-gated provider, set the opt-in flag and
append it to the priority list when absent; a no-op for other providers. -/
def enable_provider (p : Provider) (st : RouterState) : RouterState :=
  if p = Provider.openai then
    let st1 := { st with enable_openai := true }
    if p ∈ st1.priority then st1 else { st1 with priority := st1.priority ++ [p] }
  else st

/-- `disable_provider`: remove the provider from the priority list (first
occurrence) and, for the gated provider, clear the opt-in flag. -/
def disable_provider (p : Provider) (st : RouterState) : RouterState :=
  let st1 :=
    if p ∈ st.priority then { st with priority := st.priority.erase p } else st
  if p = Provider.openai then { st1 with enable_openai := false } else st1

/-- Environment-style configuration consumed once at construction
(`os.getenv` reads in `__init__` and `_load_provider_configs`). -/
structure Env where
  openai_enabled_env : Bool
  perplexity_search_only_env : Bool
  dry_run_env : Bool
  daily_max_cost_env : ℚ
  llm_priority_env : Option (List Provider)
  anthropic_api_key : Option String
  gemini_api_key : Option String
  perplexity_api_key : Option String
  openai_api_key : Option String
  anthropic_model : String
  gemini_model : String
  perplexity_model : String
  openai_model : String
  anthropic_max_tokens : Nat
  gemini_max_tokens : Nat
  perplexity_max_tokens : Nat
  openai_max_tokens : Nat

/-- Python `bool(os.getenv(KEY))`: false for an unset or empty key. -/
def keyPresent : Option String → Bool
  | none => false
  | some s => !s.isEmpty

/-- `_load_provider_configs`: the `enabled` flag is credential presence, and
for the opt-in-gated provider additionally the opt-in flag. -/
def load_provider_configs (env : Env) (enable_openai : Bool) :
    Provider → ProviderConfig
  | .anthropic =>
    ⟨env.anthropic_api_key, env.anthropic_model,
     keyPresent env.anthropic_api_key, env.anthropic_max_tokens⟩
  | .gemini =>
    ⟨env.gemini_api_key, env.gemini_model,
     keyPresent env.gemini_api_key, env.gemini_max_tokens⟩
  | .perplexity =>
    ⟨env.perplexity_api_key, env.perplexity_model,
     keyPresent env.perplexity_api_key, env.perplexity_max_tokens⟩
  | .openai =>
    ⟨env.openai_api_key, env.openai_model,
     enable_openai && keyPresent env.openai_api_key, env.openai_max_tokens⟩

/-- `LLMRouter.__init__`: resolve the opt-in flag (argument or environment),
the priority list (environment over argument over default), remove the gated
provider when not opted in, and load the provider configs exactly once. -/
def mkRouter (env : Env) (priority_arg : Option (List Provider))
    (enable_openai_arg : Bool) (max_retries : Nat) (today : Nat) :
    RouterState :=
  let enable_openai := enable_openai_arg || env.openai_enabled_env
  let priority0 :=
    match env.llm_priority_env with
    | some l => l
    | none =>
      match priority_arg with
      | some l => l
      | none => [Provider.anthropic, Provider.gemini, Provider.perplexity]
  let priority :=
    if enable_openai = false ∧ Provider.openai ∈ priority0 then
      priority0.erase Provider.openai
    else priority0
  { enable_openai := enable_openai
    perplexity_search_only := env.perplexity_search_only_env
    dry_run := env.dry_run_env
    daily_max_cost := env.daily_max_cost_env
    daily_cost_used := 0
    cost_reset_date := today
    max_retries := max_retries
    priority := priority
    providers_config := load_provider_configs env enable_openai
    usage_stats := fun _ => 0
    usage_history := []
    request_timestamps := fun _ => []
    error_counts := fun _ => 0
    circuit_breaker_timers := fun _ => none }

/-- The denial condition of the budget gate, read off `_check_daily_budget`:
after the lazy date rollover, the accumulated cost has reached the ceiling. -/
def budget_denied (today : Nat) (st : RouterState) : Prop :=
  st.daily_max_cost ≤ (if st.cost_reset_date < today then 0 else st.daily_cost_used)

instance (today : Nat) (st : RouterState) : Decidable (budget_denied today st) := by
  unfold budget_denied; infer_instance

/-! Concrete states and oracles used by witnesses and counterexamples. -/

/-- A config whose credential is present (hence enabled). -/
def enabledConfig : ProviderConfig := ⟨some "key", "model-x", true, 4096⟩

/-- A config whose credential is absent (hence disabled). -/
def disabledConfig : ProviderConfig := ⟨none, "model-x", false, 4096⟩

/-- A clean non-dry-run router state: default priority, all of the first three
providers enabled, generous budget, no history. -/
def baseState : RouterState :=
  { enable_openai := false
    perplexity_search_only := false
    dry_run := false
    daily_max_cost := 100
    daily_cost_used := 0
    cost_reset_date := 0
    max_retries := 3
    priority := [Provider.anthropic, Provider.gemini, Provider.perplexity]
    providers_config := fun p =>
      match p with
      | .openai => disabledConfig
      | _ => enabledConfig
    usage_stats := fun _ => 0
    usage_history := []
    request_timestamps := fun _ => []
    error_counts := fun _ => 0
    circuit_breaker_timers := fun _ => none }

/-- Dry-run state whose single provider is rate-limited at time 1000: one
stale timestamp (100) followed by 50 fresh ones (990), with the anthropic
ceiling at 50 requests per minute. -/
def stDryLimited : RouterState :=
  { baseState with
      dry_run := true
      priority := [Provider.anthropic]
      request_timestamps := fun p =>
        match p with
        | .anthropic => 100 :: List.replicate 50 (990 : ℚ)
        | _ => [] }

/-- A clean dry-run state. -/
def stDry : RouterState := { baseState with dry_run := true }

/-- P1 unavailable, P2 and P3 available, in priority order. -/
def stP123 : RouterState :=
  { baseState with
      providers_config := fun p =>
        match p with
        | .anthropic => disabledConfig
        | .openai => disabledConfig
        | _ => enabledConfig }

/-- Budget-exhausted state: the daily ceiling is 0 and 0 has been spent. -/
def stBudgetOut : RouterState := { baseState with daily_max_cost := 0 }

/-- Budget ceiling (1 USD) strictly below the estimated cost of one
1,000,000-token anthropic call (3 USD), with nothing spent yet. -/
def stBudgetLow : RouterState := { baseState with daily_max_cost := 1 }

/-- Two healthy providers; gemini starts with a nonzero error count so that a
reset would be observable. -/
def stTwo : RouterState :=
  { baseState with
      priority := [Provider.anthropic, Provider.gemini]
      max_retries := 1
      error_counts := fun p => match p with | .gemini => 2 | _ => 0 }

/-- Only gemini is configured. -/
def stGemini : RouterState :=
  { baseState with
      priority := [Provider.gemini]
      providers_config := fun p =>
        match p with
        | .gemini => enabledConfig
        | _ => disabledConfig }

/-- Anthropic's breaker opened at time 0 with 5 recorded errors. -/
def stBreaker : RouterState :=
  { baseState with
      error_counts := fun p => match p with | .anthropic => 5 | _ => 0
      circuit_breaker_timers := fun p =>
        match p with | .anthropic => some 0 | _ => none }

/-- Sorted request timestamps for the rate-limit witness. -/
def stStamps : RouterState :=
  { baseState with
      request_timestamps := fun p =>
        match p with
        | .anthropic => [(10 : ℚ), 20, 990, 995]
        | _ => [] }

/-- A concrete environment: the opt-in-gated provider has a credential but no
opt-in; every other provider has a credential. -/
def envW : Env :=
  { openai_enabled_env := false
    perplexity_search_only_env := false
    dry_run_env := true
    daily_max_cost_env := 0
    llm_priority_env := none
    anthropic_api_key := some "a-key"
    gemini_api_key := some "g-key"
    perplexity_api_key := some "p-key"
    openai_api_key := some "o-key"
    anthropic_model := "claude-3-5-sonnet-20241022"
    gemini_model := "gemini-1.5-pro"
    perplexity_model := "llama-3.1-sonar-large-128k-online"
    openai_model := "gpt-4"
    anthropic_max_tokens := 4096
    gemini_max_tokens := 8192
    perplexity_max_tokens := 4096
    openai_max_tokens := 4096 }

/-- Every call succeeds. -/
def oracleOk : Nat → Provider → CallOutcome := fun _ _ => .ok "ok"

/-- Calls to perplexity succeed; calls to anthropic and gemini fail. -/
def oracleC : Nat → Provider → CallOutcome :=
  fun _ p => if p = Provider.perplexity then .ok "perplexity response" else .fail

/-- Calls to gemini succeed; all other calls fail. -/
def oracleG : Nat → Provider → CallOutcome :=
  fun _ p => if p = Provider.gemini then .ok "fallback text" else .fail

/-- The fields provider selection may touch: breaker timers, error counts (via
the lazy breaker reset) and request timestamps (via rate-limit pruning). -/
def setSel (st : RouterState) (T : Provider → Option ℚ) (E : Provider → Nat)
    (R : Provider → List ℚ) : RouterState :=
  { st with circuit_breaker_timers := T, error_counts := E,
            request_timestamps := R }

/-! ### Helper lemmas: state shapes and pure characterizations -/

@[simp] lemma setSel_enable_openai (st T E R) :
    (setSel st T E R).enable_openai = st.enable_openai := rfl

@[simp] lemma setSel_perplexity_search_only (st T E R) :
    (setSel st T E R).perplexity_search_only = st.perplexity_search_only := rfl

@[simp] lemma setSel_dry_run (st T E R) :
    (setSel st T E R).dry_run = st.dry_run := rfl

@[simp] lemma setSel_daily_max_cost (st T E R) :
    (setSel st T E R).daily_max_cost = st.daily_max_cost := rfl

@[simp] lemma setSel_daily_cost_used (st T E R) :
    (setSel st T E R).daily_cost_used = st.daily_cost_used := rfl

@[simp] lemma setSel_cost_reset_date (st T E R) :
    (setSel st T E R).cost_reset_date = st.cost_reset_date := rfl

@[simp] lemma setSel_max_retries (st T E R) :
    (setSel st T E R).max_retries = st.max_retries := rfl

@[simp] lemma setSel_priority (st T E R) :
    (setSel st T E R).priority = st.priority := rfl

@[simp] lemma setSel_providers_config (st T E R) :
    (setSel st T E R).providers_config = st.providers_config := rfl

@[simp] lemma setSel_usage_stats (st T E R) :
    (setSel st T E R).usage_stats = st.usage_stats := rfl

@[simp] lemma setSel_usage_history (st T E R) :
    (setSel st T E R).usage_history = st.usage_history := rfl

@[simp] lemma setSel_circuit_breaker_timers (st T E R) :
    (setSel st T E R).circuit_breaker_timers = T := rfl

@[simp] lemma setSel_error_counts (st T E R) :
    (setSel st T E R).error_counts = E := rfl

@[simp] lemma setSel_request_timestamps (st T E R) :
    (setSel st T E R).request_timestamps = R := rfl

lemma setSel_setSel (st T E R T' E' R') :
    setSel (setSel st T E R) T' E' R' = setSel st T' E' R' := rfl

lemma setSel_self (st : RouterState) :
    setSel st st.circuit_breaker_timers st.error_counts st.request_timestamps
      = st := rfl

lemma is_cb_open_fst (now : ℚ) (st : RouterState) (p : Provider) :
    (is_circuit_breaker_open now st p).1 = breaker_open_pure now st p := by
  unfold is_circuit_breaker_open breaker_open_pure
  cases st.circuit_breaker_timers p with
  | none => rfl
  | some t => dsimp only; split <;> rfl

lemma is_cb_open_snd_shape (now : ℚ) (st : RouterState) (p : Provider) :
    ∃ T E, (is_circuit_breaker_open now st p).2
      = setSel st T E st.request_timestamps := by
  unfold is_circuit_breaker_open
  cases st.circuit_breaker_timers p with
  | none => exact ⟨_, _, (setSel_self st).symm⟩
  | some t =>
    dsimp only; split
    · exact ⟨_, _, rfl⟩
    · exact ⟨_, _, (setSel_self st).symm⟩

lemma check_rate_limit_fst (now : ℚ) (st : RouterState) (p : Provider) :
    (check_rate_limit now st p).1 = under_rate_pure now st p := rfl

lemma check_rate_limit_snd_shape (now : ℚ) (st : RouterState) (p : Provider) :
    ∃ R, (check_rate_limit now st p).2
      = setSel st st.circuit_breaker_timers st.error_counts R :=
  ⟨_, rfl⟩

lemma dropWhile_idem {α : Type} (p : α → Bool) (l : List α) :
    (l.dropWhile p).dropWhile p = l.dropWhile p := by
  induction l with
  | nil => rfl
  | cons a l ih =>
    by_cases h : p a
    · simp [List.dropWhile_cons, h, ih]
    · simp [List.dropWhile_cons, h]

lemma breaker_pure_after_cb (now : ℚ) (st : RouterState) (p q : Provider) :
    breaker_open_pure now (is_circuit_breaker_open now st p).2 q
      = breaker_open_pure now st q := by
  unfold is_circuit_breaker_open
  cases hp : st.circuit_breaker_timers p with
  | none => rfl
  | some t =>
    dsimp only; split
    · rename_i hexp
      by_cases hq : q = p
      · subst hq
        unfold breaker_open_pure
        simp [Function.update, hp, hexp]
      · unfold breaker_open_pure
        simp [Function.update, hq]
    · rfl

lemma under_rate_after_cb (now : ℚ) (st : RouterState) (p q : Provider) :
    under_rate_pure now (is_circuit_breaker_open now st p).2 q
      = under_rate_pure now st q := by
  obtain ⟨T, E, h⟩ := is_cb_open_snd_shape now st p
  rw [h]; unfold under_rate_pure; rw [setSel_request_timestamps]

lemma breaker_pure_after_rate (now : ℚ) (st : RouterState) (p q : Provider) :
    breaker_open_pure now (check_rate_limit now st p).2 q
      = breaker_open_pure now st q := by
  obtain ⟨R, h⟩ := check_rate_limit_snd_shape now st p
  rw [h]; unfold breaker_open_pure; rw [setSel_circuit_breaker_timers]

lemma under_rate_after_rate (now : ℚ) (st : RouterState) (p q : Provider) :
    under_rate_pure now (check_rate_limit now st p).2 q
      = under_rate_pure now st q := by
  unfold check_rate_limit under_rate_pure
  by_cases hq : q = p
  · subst hq; simp [Function.update, dropWhile_idem]
  · simp [Function.update, hq]

lemma filter_ext {α : Type} (p q : α → Bool) (h : ∀ a, p a = q a) (l : List α) :
    l.filter p = l.filter q := by
  induction l with
  | nil => rfl
  | cons a l ih => simp only [List.filter_cons, h a, ih]

lemma filter_breaker_fst (now : ℚ) (l : List Provider) :
    ∀ st : RouterState,
      (filter_breaker now st l).1
        = l.filter (fun p => !breaker_open_pure now st p) := by
  induction l with
  | nil => intro st; rfl
  | cons p ps ih =>
    intro st
    show (let r := is_circuit_breaker_open now st p
          let rest := filter_breaker now r.2 ps
          (if r.1 then rest.1 else p :: rest.1, rest.2)).1 = _
    dsimp only
    rw [ih, is_cb_open_fst,
        filter_ext _ (fun q => !breaker_open_pure now st q)
          (fun q => by rw [breaker_pure_after_cb]) ps]
    by_cases h : breaker_open_pure now st p
    · simp [h, List.filter_cons]
    · simp [h, List.filter_cons]

lemma filter_breaker_snd_shape (now : ℚ) (l : List Provider) :
    ∀ st : RouterState, ∃ T E,
      (filter_breaker now st l).2 = setSel st T E st.request_timestamps := by
  induction l with
  | nil => intro st; exact ⟨_, _, (setSel_self st).symm⟩
  | cons p ps ih =>
    intro st
    obtain ⟨T0, E0, h0⟩ := is_cb_open_snd_shape now st p
    obtain ⟨T1, E1, h1⟩ := ih (is_circuit_breaker_open now st p).2
    refine ⟨T1, E1, ?_⟩
    simp only [filter_breaker]
    rw [h1, h0]
    simp [setSel_setSel]

lemma breaker_pure_after_fb (now : ℚ) (l : List Provider) :
    ∀ (st : RouterState) (q : Provider),
      breaker_open_pure now (filter_breaker now st l).2 q
        = breaker_open_pure now st q := by
  induction l with
  | nil => intro st q; rfl
  | cons p ps ih =>
    intro st q
    show breaker_open_pure now
      (let r := is_circuit_breaker_open now st p
       let rest := filter_breaker now r.2 ps
       (if r.1 then rest.1 else p :: rest.1, rest.2)).2 q = _
    dsimp only
    rw [ih, breaker_pure_after_cb]

lemma filter_rate_fst (now : ℚ) (l : List Provider) :
    ∀ st : RouterState,
      (filter_rate now st l).1 = l.filter (fun p => under_rate_pure now st p) := by
  induction l with
  | nil => intro st; rfl
  | cons p ps ih =>
    intro st
    show (let r := check_rate_limit now st p
          let rest := filter_rate now r.2 ps
          (if r.1 then p :: rest.1 else rest.1, rest.2)).1 = _
    dsimp only
    rw [ih, check_rate_limit_fst,
        filter_ext _ (fun q => under_rate_pure now st q)
          (fun q => by rw [under_rate_after_rate]) ps]
    by_cases h : under_rate_pure now st p
    · simp [h, List.filter_cons]
    · simp [h, List.filter_cons]

lemma filter_rate_snd_shape (now : ℚ) (l : List Provider) :
    ∀ st : RouterState, ∃ R,
      (filter_rate now st l).2
        = setSel st st.circuit_breaker_timers st.error_counts R := by
  induction l with
  | nil => intro st; exact ⟨_, (setSel_self st).symm⟩
  | cons p ps ih =>
    intro st
    obtain ⟨R0, h0⟩ := check_rate_limit_snd_shape now st p
    obtain ⟨R1, h1⟩ := ih (check_rate_limit now st p).2
    refine ⟨R1, ?_⟩
    simp only [filter_rate]
    rw [h1, h0]
    simp [setSel_setSel]

lemma preferred_step_snd_shape (now : ℚ) (pref : Option Provider)
    (tt : Option String) (st : RouterState) :
    ∃ T E, (preferred_step now pref tt st).2
      = setSel st T E st.request_timestamps := by
  unfold preferred_step
  cases pref with
  | none => exact ⟨_, _, (setSel_self st).symm⟩
  | some p =>
    dsimp only
    split
    · exact ⟨_, _, (setSel_self st).symm⟩
    · split
      · exact ⟨_, _, (setSel_self st).symm⟩
      · split
        · obtain ⟨T, E, h⟩ := is_cb_open_snd_shape now st p
          split <;> exact ⟨T, E, h⟩
        · exact ⟨_, _, (setSel_self st).symm⟩

lemma search_step_snd_shape (now : ℚ) (tt : Option String) (st : RouterState) :
    ∃ T E, (search_step now tt st).2 = setSel st T E st.request_timestamps := by
  unfold search_step
  split
  · split
    · split
      · obtain ⟨T, E, h⟩ :=
          is_cb_open_snd_shape now st Provider.perplexity
        dsimp only
        split <;> exact ⟨T, E, h⟩
      · exact ⟨_, _, (setSel_self st).symm⟩
    · exact ⟨_, _, (setSel_self st).symm⟩
  · exact ⟨_, _, (setSel_self st).symm⟩

lemma priority_step_snd_shape (now : ℚ) (tt : Option String)
    (st : RouterState) :
    ∃ T E R, (priority_step now tt st).2 = setSel st T E R := by
  have key : ∀ (avail : List Provider), ∃ T E R,
      (filter_rate now (filter_breaker now st avail).2
        (filter_breaker now st avail).1).2 = setSel st T E R := by
    intro avail
    obtain ⟨T, E, hb⟩ := filter_breaker_snd_shape now avail st
    obtain ⟨R, hr⟩ := filter_rate_snd_shape now
      (filter_breaker now st avail).1 (filter_breaker now st avail).2
    refine ⟨T, E, R, ?_⟩
    rw [hr, hb]
    simp [setSel_setSel]
  obtain ⟨T, E, R, h⟩ := key
    (if st.perplexity_search_only = true ∧ tt ≠ some "search" then
      (get_available_providers st).filter (fun p => decide (p ≠ Provider.perplexity))
     else get_available_providers st)
  refine ⟨T, E, R, ?_⟩
  unfold priority_step
  dsimp only
  split <;> exact h

lemma select_provider_snd_shape (now : ℚ) (pref : Option Provider)
    (tt : Option String) (st : RouterState) :
    ∃ T E R, (select_provider now pref tt st).2 = setSel st T E R := by
  unfold select_provider
  obtain ⟨T0, E0, h0⟩ := preferred_step_snd_shape now pref tt st
  rcases hps : preferred_step now pref tt st with ⟨fst0, st1⟩
  rw [hps] at h0; dsimp only at h0
  cases fst0 with
  | some p => exact ⟨_, _, _, h0⟩
  | none =>
    dsimp only
    obtain ⟨T1, E1, h1⟩ := search_step_snd_shape now tt st1
    rcases hss : search_step now tt st1 with ⟨fst1, st2⟩
    rw [hss] at h1; dsimp only at h1
    cases fst1 with
    | some p =>
      refine ⟨T1, E1, st.request_timestamps, ?_⟩
      rw [h1, h0]
      simp [setSel_setSel]
    | none =>
      dsimp only
      obtain ⟨T2, E2, R2, h2⟩ := priority_step_snd_shape now tt st2
      refine ⟨T2, E2, R2, ?_⟩
      rw [h2, h1, h0]
      simp [setSel_setSel]

lemma filter_and {α : Type} (p q : α → Bool) (l : List α) :
    (l.filter p).filter q = l.filter (fun a => p a && q a) := by
  induction l with
  | nil => rfl
  | cons a l ih =>
    by_cases hp : p a <;> by_cases hq : q a <;>
      simp [List.filter_cons, hp, hq, ih]

lemma under_rate_after_fb (now : ℚ) (l : List Provider) (st : RouterState)
    (q : Provider) :
    under_rate_pure now (filter_breaker now st l).2 q
      = under_rate_pure now st q := by
  obtain ⟨T, E, h⟩ := filter_breaker_snd_shape now l st
  rw [h]; unfold under_rate_pure; rw [setSel_request_timestamps]

lemma breaker_pure_after_fr (now : ℚ) (l : List Provider) (st : RouterState)
    (q : Provider) :
    breaker_open_pure now (filter_rate now st l).2 q
      = breaker_open_pure now st q := by
  obtain ⟨R, h⟩ := filter_rate_snd_shape now l st
  rw [h]; unfold breaker_open_pure; rw [setSel_circuit_breaker_timers]

lemma breaker_pure_after_preferred (now : ℚ) (pref : Option Provider)
    (tt : Option String) (st : RouterState) (q : Provider) :
    breaker_open_pure now (preferred_step now pref tt st).2 q
      = breaker_open_pure now st q := by
  unfold preferred_step
  cases pref with
  | none => rfl
  | some p =>
    dsimp only
    split
    · rfl
    · split
      · rfl
      · split
        · split <;> exact breaker_pure_after_cb now st p q
        · rfl

lemma breaker_pure_after_search (now : ℚ) (tt : Option String)
    (st : RouterState) (q : Provider) :
    breaker_open_pure now (search_step now tt st).2 q
      = breaker_open_pure now st q := by
  unfold search_step
  split
  · split
    · split
      · dsimp only
        split <;> exact breaker_pure_after_cb now st Provider.perplexity q
      · rfl
    · rfl
  · rfl

/-- The priority-order pass returns the head of the candidate list: available
providers, minus the search-only exclusion, with closed breakers (as read at
`now`) and under their rate limits. -/
lemma priority_step_fst (now : ℚ) (tt : Option String) (st : RouterState) :
    (priority_step now tt st).1 =
      ((if st.perplexity_search_only = true ∧ tt ≠ some "search" then
          (get_available_providers st).filter
            (fun p => decide (p ≠ Provider.perplexity))
        else get_available_providers st).filter
        (fun p => !breaker_open_pure now st p && under_rate_pure now st p)).head? := by
  set avail :=
    (if st.perplexity_search_only = true ∧ tt ≠ some "search" then
      (get_available_providers st).filter (fun p => decide (p ≠ Provider.perplexity))
     else get_available_providers st) with havail
  have hscrut : (filter_rate now (filter_breaker now st avail).2
      (filter_breaker now st avail).1).1
      = avail.filter (fun p => !breaker_open_pure now st p && under_rate_pure now st p) := by
    rw [filter_rate_fst, filter_breaker_fst,
        filter_ext _ (fun q => under_rate_pure now st q)
          (fun q => under_rate_after_fb now avail st q),
        filter_and]
  unfold priority_step
  dsimp only
  rw [← havail]
  rcases h : (filter_rate now (filter_breaker now st avail).2
      (filter_breaker now st avail).1).1 with _ | ⟨s, rest⟩
  · rw [← hscrut, h]; rfl
  · rw [← hscrut, h]; rfl

/-- With no preferred provider and a non-search task type, selection is just
the priority-order pass on the unchanged state. -/
lemma select_provider_eq_priority_step (now : ℚ) (tt : Option String)
    (st : RouterState) (h : tt ≠ some "search") :
    select_provider now none tt st = priority_step now tt st := by
  have hsearch : search_step now tt st = (none, st) := by
    unfold search_step; rw [if_neg h]
  show (match search_step now tt st with
        | (some p, st2) => ((some p : Option Provider), st2)
        | (none, st2) => priority_step now tt st2) = priority_step now tt st
  rw [hsearch]

/-! ### Claim C2 -/

/-- C2: with no preferred provider and a non-search task type,
`select_provider` returns the first provider in priority order that is
structurally available (enabled), is not the search-only provider excluded
under an active search-only restriction, has a closed circuit breaker, and is
under its per-minute rate limit — and returns `none` exactly when no provider
satisfies all four conditions (`head?` of the filtered list). -/
theorem select_provider_no_preference (now : ℚ) (tt : Option String)
    (st : RouterState) (h : tt ≠ some "search") :
    (select_provider now none tt st).1 =
      (st.priority.filter (fun p =>
        (st.providers_config p).enabled
        && !(st.perplexity_search_only && decide (p = Provider.perplexity))
        && !breaker_open_pure now st p
        && under_rate_pure now st p)).head? := by
  rw [select_provider_eq_priority_step now tt st h, priority_step_fst]
  congr 1
  unfold get_available_providers
  by_cases hso : st.perplexity_search_only = true
  · rw [if_pos ⟨hso, h⟩]
    simp only [filter_and]
    refine filter_ext _ _ (fun p => ?_) _
    cases (st.providers_config p).enabled <;>
      rcases hp : decide (p = Provider.perplexity) <;>
      cases breaker_open_pure now st p <;>
      cases under_rate_pure now st p <;>
      simp [hso, decide_not, hp]
  · rw [if_neg (fun hc => hso hc.1)]
    simp only [filter_and]
    refine filter_ext _ _ (fun p => ?_) _
    rw [Bool.not_eq_true] at hso
    cases (st.providers_config p).enabled <;>
      cases breaker_open_pure now st p <;>
      cases under_rate_pure now st p <;>
      simp [hso]

/-- Witness for C2, instantiating the claim's own example: P1 unavailable,
P2 and P3 available in priority order, no preference, no task type: P2
(gemini) is selected. -/
theorem select_provider_no_preference_witness :
    (select_provider 0 none none stP123).1 = some Provider.gemini := by
  have h := select_provider_no_preference 0 none stP123 (by decide)
  rw [h]
  decide

/-! ### Claim C3 -/

lemma preferred_step_some_iff (now : ℚ) (tt : Option String)
    (st : RouterState) (p : Provider) :
    (preferred_step now (some p) tt st).1 = some p ↔
      (¬(p = Provider.openai ∧ st.enable_openai = false)
       ∧ ¬(p = Provider.perplexity ∧ st.perplexity_search_only = true
            ∧ tt ≠ some "search")
       ∧ (st.providers_config p).enabled = true
       ∧ breaker_open_pure now st p = false) := by
  unfold preferred_step
  dsimp only
  split
  · rename_i h1
    simp [h1]
  · split
    · rename_i h1 h2
      simp [h2]
    · split
      · rename_i h1 h2 hen
        rw [is_cb_open_fst]
        by_cases hbr : breaker_open_pure now st p = true
        · rw [if_pos hbr]
          simp [hbr]
        · rw [if_neg hbr]
          rw [Bool.not_eq_true] at hbr
          simp [h1, h2, hen, hbr]
      · rename_i h1 h2 hen
        rw [Bool.not_eq_true] at hen
        simp [hen]

/-- C3: `select_provider` honors the short-circuit rules in order.
(1) A supplied preferred provider is returned by the preferred-provider step
iff it is not the opt-in-gated provider with opt-in absent, not the
search-only provider requested for a non-search task under an active
search-only restriction, is structurally available, and its circuit breaker
is closed. (2) Whatever the preferred-provider step returns short-circuits
`select_provider` verbatim. (3) When the task type is "search" and the
preferred-provider step fell through, the search-only provider is returned
immediately — overriding generic priority order — whenever it is in the
priority list, available, and its breaker is closed. -/
theorem select_provider_short_circuit (now : ℚ) (tt : Option String)
    (st : RouterState) :
    (∀ p : Provider,
      ((preferred_step now (some p) tt st).1 = some p ↔
        (¬(p = Provider.openai ∧ st.enable_openai = false)
         ∧ ¬(p = Provider.perplexity ∧ st.perplexity_search_only = true
              ∧ tt ≠ some "search")
         ∧ (st.providers_config p).enabled = true
         ∧ breaker_open_pure now st p = false)))
    ∧ (∀ (pref : Option Provider) (q : Provider) (stq : RouterState),
        preferred_step now pref tt st = (some q, stq) →
        select_provider now pref tt st = (some q, stq))
    ∧ (∀ pref : Option Provider, tt = some "search" →
        (preferred_step now pref tt st).1 = none →
        Provider.perplexity ∈ st.priority →
        (st.providers_config Provider.perplexity).enabled = true →
        breaker_open_pure now st Provider.perplexity = false →
        (select_provider now pref tt st).1 = some Provider.perplexity) := by
  refine ⟨fun p => preferred_step_some_iff now tt st p, ?_, ?_⟩
  · intro pref q stq h
    unfold select_provider
    rw [h]
  · intro pref hsearch h0 hmem hen hbr
    rcases hps : preferred_step now pref tt st with ⟨f, st1⟩
    rw [hps] at h0; dsimp at h0; subst h0
    obtain ⟨T, E, hshape⟩ := preferred_step_snd_shape now pref tt st
    rw [hps] at hshape; dsimp at hshape
    have hmem1 : Provider.perplexity ∈ st1.priority := by
      rw [hshape, setSel_priority]; exact hmem
    have hen1 : (st1.providers_config Provider.perplexity).enabled = true := by
      rw [hshape, setSel_providers_config]; exact hen
    have hb1 : breaker_open_pure now st1 Provider.perplexity = false := by
      have hinv := breaker_pure_after_preferred now pref tt st Provider.perplexity
      rw [hps] at hinv; dsimp at hinv; rw [hinv]; exact hbr
    have hss : search_step now tt st1
        = (some Provider.perplexity,
           (is_circuit_breaker_open now st1 Provider.perplexity).2) := by
      unfold search_step
      rw [if_pos hsearch, if_pos hmem1, if_pos hen1]
      dsimp only
      rw [is_cb_open_fst, hb1]
      simp
    have hsel : select_provider now pref tt st
        = (match search_step now tt st1 with
           | (some p, st2) => ((some p : Option Provider), st2)
           | (none, st2) => priority_step now tt st2) := by
      unfold select_provider
      rw [hps]
    rw [hsel, hss]

/-- Witness for C3: the preferred provider (anthropic) is structurally
unavailable, so selection falls through; the task type is "search", so the
search-affinity rule returns perplexity. -/
theorem select_provider_short_circuit_witness :
    (select_provider 0 (some Provider.anthropic) (some "search") stP123).1
      = some Provider.perplexity := by
  exact (select_provider_short_circuit 0 (some "search") stP123).2.2
    (some Provider.anthropic) rfl (by decide) (by decide) (by decide) (by decide)

/-! ### Claim C1 -/

/-- C1 (amended): when `dry_run` is true and provider selection returns a
provider, `generate` returns `Success` with the mock response, the literal
cost string "$0.00", attempts no provider call (the call counter is
unchanged), and the final state is exactly the post-selection state — in
particular `daily_cost_used`, `usage_stats` and `usage_history` are untouched
(selection itself can only prune stale request timestamps and lazily reset
breakers, which is why they are not listed here). -/
theorem generate_dry_run_frame (now : ℚ) (today : Nat) (now_iso : String)
    (fuel : Nat) (oracle : Nat → Provider → CallOutcome) (k : Nat)
    (prompt : String) (max_tokens : Option Nat) (pref : Option Provider)
    (tt : Option String) (st : RouterState) (p : Provider)
    (hdry : st.dry_run = true)
    (hsel : (select_provider now pref tt st).1 = some p) :
    generate now today now_iso fuel oracle k prompt max_tokens pref tt st
      = (.success { provider := p,
                    result := get_mock_response prompt (providerName p) tt,
                    timestamp := now_iso, dry_run := true, cost := some "$0.00" },
         (select_provider now pref tt st).2, k)
    ∧ (select_provider now pref tt st).2.daily_cost_used = st.daily_cost_used
    ∧ (select_provider now pref tt st).2.usage_stats = st.usage_stats
    ∧ (select_provider now pref tt st).2.usage_history = st.usage_history := by
  obtain ⟨T, E, R, hshape⟩ := select_provider_snd_shape now pref tt st
  rcases hs : select_provider now pref tt st with ⟨f, st1⟩
  rw [hs] at hsel hshape; dsimp at hsel hshape
  subst hsel
  have hdry1 : st1.dry_run = true := by
    rw [hshape, setSel_dry_run]; exact hdry
  refine ⟨?_, ?_, ?_, ?_⟩
  · unfold generate
    rw [hs]
    dsimp only
    rw [if_pos hdry1]
  · rw [hshape, setSel_daily_cost_used]
  · rw [hshape, setSel_usage_stats]
  · rw [hshape, setSel_usage_history]

/-- Witness for C1: a clean dry-run state; `generate` returns the mock
success with cost "$0.00". -/
theorem generate_dry_run_frame_witness :
    (generate 5 0 "t" 0 oracleOk 0 "hello" none none none stDry).1
      = GenResult.success
          { provider := Provider.anthropic,
            result := get_mock_response "hello" (providerName Provider.anthropic) none,
            timestamp := "t", dry_run := true, cost := some "$0.00" } := by
  have h := generate_dry_run_frame 5 0 "t" 0 oracleOk 0 "hello" none none none
    stDry Provider.anthropic (by decide) (by decide)
  rw [h.1]

/-- Counterexample to C1 as stated: in `stDryLimited` the single provider is
structurally available and `dry_run` is true, yet `generate` returns the
no-provider error (the provider is over its rate limit), and it mutates
`request_timestamps` (selection prunes the stale entry). -/
theorem generate_dry_run_claim_counterexample :
    (generate 1000 0 "t" 0 oracleOk 0 "hello" none none none stDryLimited).1
        = GenResult.error_no_provider
    ∧ (generate 1000 0 "t" 0 oracleOk 0 "hello" none none none
        stDryLimited).2.1.request_timestamps Provider.anthropic
        ≠ stDryLimited.request_timestamps Provider.anthropic
    ∧ (stDryLimited.providers_config Provider.anthropic).enabled = true
    ∧ stDryLimited.dry_run = true := by
  have h1 : stale 1000 100 = true := by norm_num [stale]
  have h2 : stale 1000 990 = false := by norm_num [stale]
  have hdrop : List.dropWhile (fun t => stale 1000 t)
      (stDryLimited.request_timestamps Provider.anthropic)
      = List.replicate 50 (990 : ℚ) := by
    show List.dropWhile (fun t => stale 1000 t)
        ((100 : ℚ) :: List.replicate 50 990) = List.replicate 50 (990 : ℚ)
    have hrep : List.replicate 50 (990 : ℚ) = 990 :: List.replicate 49 990 := rfl
    rw [hrep, List.dropWhile_cons, List.dropWhile_cons]
    simp [h1, h2]
  have hcrl : check_rate_limit 1000 stDryLimited Provider.anthropic
      = (false,
         { stDryLimited with
             request_timestamps :=
               Function.update stDryLimited.request_timestamps Provider.anthropic
                 (List.replicate 50 (990 : ℚ)) }) := by
    show (decide ((List.dropWhile (fun t => stale 1000 t)
            (stDryLimited.request_timestamps Provider.anthropic)).length
          < (rate_limits Provider.anthropic).requests_per_minute),
        { stDryLimited with
            request_timestamps :=
              Function.update stDryLimited.request_timestamps Provider.anthropic
                (List.dropWhile (fun t => stale 1000 t)
                  (stDryLimited.request_timestamps Provider.anthropic)) }) = _
    rw [hdrop]
    refine Prod.ext ?_ rfl
    decide
  have hsel_pair : select_provider 1000 none none stDryLimited
      = (none,
         { stDryLimited with
             request_timestamps :=
               Function.update stDryLimited.request_timestamps Provider.anthropic
                 (List.replicate 50 (990 : ℚ)) }) := by
    rw [select_provider_eq_priority_step 1000 none stDryLimited (by decide)]
    have hfb : filter_breaker 1000 stDryLimited [Provider.anthropic]
        = ([Provider.anthropic], stDryLimited) := rfl
    show (match (filter_rate 1000
          (filter_breaker 1000 stDryLimited [Provider.anthropic]).2
          (filter_breaker 1000 stDryLimited [Provider.anthropic]).1).1 with
      | [] => ((none : Option Provider), (filter_rate 1000
          (filter_breaker 1000 stDryLimited [Provider.anthropic]).2
          (filter_breaker 1000 stDryLimited [Provider.anthropic]).1).2)
      | selected :: _ => (some selected, (filter_rate 1000
          (filter_breaker 1000 stDryLimited [Provider.anthropic]).2
          (filter_breaker 1000 stDryLimited [Provider.anthropic]).1).2)) = _
    rw [hfb]
    have hfr : filter_rate 1000 stDryLimited [Provider.anthropic]
        = ([],
           { stDryLimited with
               request_timestamps :=
                 Function.update stDryLimited.request_timestamps Provider.anthropic
                   (List.replicate 50 (990 : ℚ)) }) := by
      show (if (check_rate_limit 1000 stDryLimited Provider.anthropic).1
              then Provider.anthropic ::
                (filter_rate 1000
                  (check_rate_limit 1000 stDryLimited Provider.anthropic).2 []).1
              else (filter_rate 1000
                (check_rate_limit 1000 stDryLimited Provider.anthropic).2 []).1,
            (filter_rate 1000
              (check_rate_limit 1000 stDryLimited Provider.anthropic).2 []).2) = _
      rw [hcrl]
      rfl
    rw [hfr]
  refine ⟨?_, ?_, by decide, by decide⟩
  · unfold generate
    rw [hsel_pair]
  · unfold generate
    rw [hsel_pair]
    decide

/-! ### Claim C4 -/

lemma check_daily_budget_false_iff (today : Nat) (st : RouterState) :
    (check_daily_budget today st).1 = false ↔ budget_denied today st := by
  unfold check_daily_budget budget_denied
  by_cases hroll : st.cost_reset_date < today
  · simp only [if_pos hroll]
    by_cases hle : st.daily_max_cost ≤ (0 : ℚ)
    · rw [if_pos hle]; simp [hle]
    · rw [if_neg hle]; simp [hle]
  · simp only [if_neg hroll]
    by_cases hle : st.daily_max_cost ≤ st.daily_cost_used
    · rw [if_pos hle]; simp [hle]
    · rw [if_neg hle]; simp [hle]

lemma check_daily_budget_snd (today : Nat) (st : RouterState) :
    (check_daily_budget today st).2
      = (if st.cost_reset_date < today then
          { st with daily_cost_used := 0, cost_reset_date := today }
         else st) := by
  unfold check_daily_budget
  by_cases hroll : st.cost_reset_date < today
  · simp only [if_pos hroll]
    split <;> rfl
  · simp only [if_neg hroll]
    split <;> rfl

lemma retry_loop_calls (now : ℚ) (now_iso : String)
    (oracle : Nat → Provider → CallOutcome) (p : Provider)
    (max_tokens : Option Nat) :
    ∀ (remaining retry k : Nat) (st : RouterState), remaining ≠ 0 →
      k + 1 ≤ (retry_loop now now_iso oracle p max_tokens remaining retry k st).2.2 := by
  intro remaining
  induction remaining with
  | zero => intro retry k st h; exact absurd rfl h
  | succ n ih =>
    intro retry k st _
    simp only [retry_loop]
    cases oracle k p with
    | ok text => exact le_refl _
    | fail =>
      by_cases hn : n = 0
      · simp only [if_pos hn]
        exact le_refl _
      · simp only [if_neg hn]
        exact le_trans (Nat.le_succ _) (ih (retry + 1) (k + 1) st hn)

lemma fallback_calls (now_iso : String)
    (oracle : Nat → Provider → CallOutcome) :
    ∀ (fuel : Nat) (failed : Provider) (k : Nat) (st : RouterState),
      k ≤ (fallback_generate now_iso oracle fuel failed k st).2.2 := by
  intro fuel
  induction fuel with
  | zero => intro failed k st; exact le_refl _
  | succ n ih =>
    intro failed k st
    simp only [fallback_generate]
    rcases havail : (get_available_providers st).filter
        (fun p => decide (p ≠ failed)) with _ | ⟨next, rest⟩
    · exact le_refl _
    · dsimp only
      rcases horacle : oracle k next with text | _
      · dsimp only
        exact Nat.le_succ _
      · dsimp only
        split
        · exact le_trans (Nat.le_succ _) (ih next (k + 1) st)
        · exact Nat.le_succ _

/-- C4 (amended): in non-dry-run mode, once selection has returned a provider
the daily budget gate is the only thing between selection and the retry loop:
when it denies — which happens exactly when, after the lazy date rollover, the
accumulated cost has reached the ceiling, with no per-call cost estimate
involved — `generate` returns the budget Error carrying the used and limit
figures and attempts no provider call; when it passes, at least one provider
call is attempted (the gate is consulted exactly once). -/
theorem generate_budget_gate (now : ℚ) (today : Nat) (now_iso : String)
    (fuel : Nat) (oracle : Nat → Provider → CallOutcome) (k : Nat)
    (prompt : String) (max_tokens : Option Nat) (pref : Option Provider)
    (tt : Option String) (st : RouterState) (p : Provider)
    (hdry : st.dry_run = false)
    (hsel : (select_provider now pref tt st).1 = some p)
    (hretry : st.max_retries ≠ 0) :
    (budget_denied today (select_provider now pref tt st).2 →
      generate now today now_iso fuel oracle k prompt max_tokens pref tt st
        = (.error_budget
            ((check_daily_budget today (select_provider now pref tt st).2).2.daily_cost_used)
            ((check_daily_budget today (select_provider now pref tt st).2).2.daily_max_cost),
           (check_daily_budget today (select_provider now pref tt st).2).2, k))
    ∧ ((generate now today now_iso fuel oracle k prompt max_tokens pref tt st).2.2 = k
        ↔ budget_denied today (select_provider now pref tt st).2)
    ∧ (check_daily_budget today (select_provider now pref tt st).2).2.daily_cost_used
        = (if (select_provider now pref tt st).2.cost_reset_date < today then 0
           else (select_provider now pref tt st).2.daily_cost_used)
    ∧ (check_daily_budget today (select_provider now pref tt st).2).2.daily_max_cost
        = st.daily_max_cost := by
  obtain ⟨T, E, R, hshape⟩ := select_provider_snd_shape now pref tt st
  rcases hs : select_provider now pref tt st with ⟨f, st1⟩
  rw [hs] at hsel hshape; dsimp at hsel hshape ⊢
  subst hsel
  have hdry1 : st1.dry_run = false := by rw [hshape, setSel_dry_run]; exact hdry
  have hretr1 : st1.max_retries ≠ 0 := by
    rw [hshape, setSel_max_retries]; exact hretry
  have hgen : generate now today now_iso fuel oracle k prompt max_tokens pref tt st
      = (match check_daily_budget today st1 with
         | (false, st2) => (.error_budget st2.daily_cost_used st2.daily_max_cost, st2, k)
         | (true, st2) =>
           match retry_loop now now_iso oracle p max_tokens st2.max_retries 0 k st2 with
           | (some s, st3, k3) => (.success s, st3, k3)
           | (none, st3, k3) => fallback_generate now_iso oracle fuel p k3 st3) := by
    unfold generate
    rw [hs]
    dsimp only
    rw [hdry1]
    rfl
  have hbmax : (check_daily_budget today st1).2.daily_max_cost = st.daily_max_cost := by
    rw [check_daily_budget_snd]
    split
    · show st1.daily_max_cost = st.daily_max_cost
      rw [hshape, setSel_daily_max_cost]
    · rw [hshape, setSel_daily_max_cost]
  have hbused : (check_daily_budget today st1).2.daily_cost_used
      = (if st1.cost_reset_date < today then 0 else st1.daily_cost_used) := by
    rw [check_daily_budget_snd]
    split <;> rfl
  refine ⟨?_, ?_, hbused, hbmax⟩
  · intro hdenied
    have hfalse : (check_daily_budget today st1).1 = false :=
      (check_daily_budget_false_iff today st1).mpr hdenied
    rw [hgen]
    rcases hb : check_daily_budget today st1 with ⟨ok, st2⟩
    rw [hb] at hfalse; dsimp at hfalse; subst hfalse
    rfl
  · rw [hgen]
    rcases hb : check_daily_budget today st1 with ⟨ok, st2⟩
    have hiff := check_daily_budget_false_iff today st1
    rw [hb] at hiff; dsimp at hiff
    cases ok with
    | false => simpa using hiff.mp rfl
    | true =>
      have hretr2 : st2.max_retries ≠ 0 := by
        have : st2.max_retries = st1.max_retries := by
          have h2 := check_daily_budget_snd today st1
          rw [hb] at h2; dsimp at h2; rw [h2]; split <;> rfl
        rw [this]; exact hretr1
      have hk : k + 1 ≤ (match retry_loop now now_iso oracle p max_tokens
            st2.max_retries 0 k st2 with
          | (some s, st3, k3) => ((GenResult.success s), st3, k3)
          | (none, st3, k3) => fallback_generate now_iso oracle fuel p k3 st3).2.2 := by
        have hloop := retry_loop_calls now now_iso oracle p max_tokens
          st2.max_retries 0 k st2 hretr2
        rcases hrl : retry_loop now now_iso oracle p max_tokens st2.max_retries 0 k st2
          with ⟨s3, st3, k3⟩
        rw [hrl] at hloop
        dsimp at hloop
        cases s3 with
        | some s => exact hloop
        | none =>
          exact le_trans hloop (fallback_calls now_iso oracle fuel p k3 st3)
      constructor
      · intro heq
        rw [heq] at hk
        exact absurd hk (by omega)
      · intro hdenied
        exact absurd (hiff.mpr hdenied) (by simp)

/-- Witness for C4: exhausted budget (ceiling 0, spent 0) in non-dry-run mode:
`generate` returns the budget Error with the used/limit figures and makes no
provider call. -/
theorem generate_budget_gate_witness :
    (generate 0 0 "t" 3 oracleOk 0 "hello" none none none stBudgetOut).1
      = GenResult.error_budget 0 0
    ∧ (generate 0 0 "t" 3 oracleOk 0 "hello" none none none stBudgetOut).2.2 = 0 := by
  have h := generate_budget_gate 0 0 "t" 3 oracleOk 0 "hello" none none none
    stBudgetOut Provider.anthropic (by decide) (by decide) (by decide)
  have hd := h.1 (by decide)
  constructor
  · rw [hd]
    decide
  · rw [hd]

/-- Counterexample to C4 as stated: the ceiling (1 USD) is strictly below the
estimated cost of the next call (a 1,000,000-token anthropic call costs 3 USD
by the static table), yet `generate` attempts the call (call counter reaches 1)
and succeeds — the gate makes no per-call estimate. -/
theorem generate_budget_claim_counterexample :
    (generate 0 0 "t" 3 oracleOk 0 "hi" (some 1000000) none none stBudgetLow).2.2 = 1
    ∧ (generate 0 0 "t" 3 oracleOk 0 "hi" (some 1000000) none none
        stBudgetLow).1.isSuccess = true
    ∧ stBudgetLow.daily_max_cost
        < ((estimated_tokens (some 1000000) : ℚ) / 1000000)
          * cost_per_million Provider.anthropic := by
  refine ⟨by decide, by decide, ?_⟩
  show (1 : ℚ) < ((estimated_tokens (some 1000000) : ℚ) / 1000000)
    * cost_per_million Provider.anthropic
  norm_num [estimated_tokens, cost_per_million]

/-! ### Claim C5 -/

/-- With three providers in priority order whose calls to the first two always
fail, the fallback recursion alternates between the first two forever: each
level excludes only the provider that failed at that level, resurrecting the
previously failed one, so the third provider is never reached. -/
lemma fallback_alternates (now_iso : String) (st : RouterState)
    (h1 : (get_available_providers st).filter
        (fun p => decide (p ≠ Provider.anthropic))
        = [Provider.gemini, Provider.perplexity])
    (h2 : (get_available_providers st).filter
        (fun p => decide (p ≠ Provider.gemini))
        = [Provider.anthropic, Provider.perplexity]) :
    ∀ (fuel k : Nat),
      (fallback_generate now_iso oracleC fuel Provider.anthropic k st).1
          = GenResult.diverge
      ∧ (fallback_generate now_iso oracleC fuel Provider.gemini k st).1
          = GenResult.diverge := by
  intro fuel
  induction fuel with
  | zero => intro k; exact ⟨rfl, rfl⟩
  | succ n ih =>
    intro k
    constructor
    · have hstep : fallback_generate now_iso oracleC (n + 1) Provider.anthropic k st
          = fallback_generate now_iso oracleC n Provider.gemini (k + 1) st := by
        simp only [fallback_generate]
        rw [h1]
        rfl
      rw [hstep]
      exact (ih (k + 1)).2
    · have hstep : fallback_generate now_iso oracleC (n + 1) Provider.gemini k st
          = fallback_generate now_iso oracleC n Provider.anthropic (k + 1) st := by
        simp only [fallback_generate]
        rw [h2]
        rfl
      rw [hstep]
      exact (ih (k + 1)).1

/-- C5 (code bug): scenario of the claim — providers A, B, C in priority
order, A (anthropic) fails all retries, B (gemini) fails every fallback
attempt, C (perplexity) would succeed.  For every fuel bound the modelled
`generate` ends in `diverge`: the Python recursion alternates between A and B
unboundedly (each recursive call excludes only the newly failed provider) and
never attempts C, instead of reporting provider=C as the claim states. -/
theorem generate_fallback_diverges :
    ∀ fuel : Nat,
      (generate 0 0 "t" fuel oracleC 0 "hello" none none none baseState).1
        = GenResult.diverge := by
  intro fuel
  show (fallback_generate "t" oracleC fuel Provider.anthropic 3
      (record_error 0 "t" Provider.anthropic
        (check_daily_budget 0 (select_provider 0 none none baseState).2).2)).1
      = GenResult.diverge
  exact (fallback_alternates "t"
    (record_error 0 "t" Provider.anthropic
      (check_daily_budget 0 (select_provider 0 none none baseState).2).2)
    (by decide) (by decide) fuel 3).1

/-! ### Claim C6 -/

/-- C6 (amended): a fallback level whose first candidate's single direct call
succeeds returns `Success` tagged with `fallback_from` = the provider that
failed immediately before it, and the only state change is the increment of
`usage_stats` for the succeeding provider — no usage-history record is
appended, no request timestamp is appended, no cost is recorded, and the
error count is not reset. -/
theorem fallback_success_accounting (now_iso : String)
    (oracle : Nat → Provider → CallOutcome) (fuel : Nat) (failed : Provider)
    (k : Nat) (st : RouterState) (next : Provider) (rest : List Provider)
    (text : String)
    (havail : (get_available_providers st).filter (fun p => decide (p ≠ failed))
        = next :: rest)
    (hok : oracle k next = .ok text) :
    fallback_generate now_iso oracle (fuel + 1) failed k st
      = (.success { provider := next, result := text, timestamp := now_iso,
                    fallback_from := some failed },
         { st with usage_stats :=
             Function.update st.usage_stats next (st.usage_stats next + 1) },
         k + 1) := by
  simp only [fallback_generate]
  rw [havail]
  dsimp only
  rw [hok]

/-- Witness for C6: concrete single-level fallback from anthropic to gemini. -/
theorem fallback_success_accounting_witness :
    fallback_generate "t" oracleG 1 Provider.anthropic 0 stTwo
      = (.success { provider := Provider.gemini, result := "fallback text",
                    timestamp := "t", fallback_from := some Provider.anthropic },
         { stTwo with
             usage_stats := Function.update stTwo.usage_stats Provider.gemini
               (stTwo.usage_stats Provider.gemini + 1) },
         1) := by
  exact fallback_success_accounting "t" oracleG 0 Provider.anthropic 0 stTwo
    Provider.gemini [] "fallback text" (by decide) (by decide)

/-- Counterexample to C6 as stated: after a successful fallback to gemini,
`usage_stats` is incremented and the result is tagged, but no success record
is in `usage_history`, no timestamp was appended, no cost was recorded, and
gemini's pre-existing error count (2) was not reset to 0 — fallback does not
record usage "exactly as a successful primary call does". -/
theorem fallback_accounting_counterexample :
    ((generate 0 0 "t" 1 oracleG 0 "hi" none none none stTwo).1
        = GenResult.success
            { provider := Provider.gemini, result := "fallback text",
              timestamp := "t", fallback_from := some Provider.anthropic })
    ∧ (generate 0 0 "t" 1 oracleG 0 "hi" none none none
        stTwo).2.1.usage_stats Provider.gemini = 1
    ∧ (generate 0 0 "t" 1 oracleG 0 "hi" none none none
        stTwo).2.1.error_counts Provider.gemini = 2
    ∧ (generate 0 0 "t" 1 oracleG 0 "hi" none none none
        stTwo).2.1.request_timestamps Provider.gemini = []
    ∧ (generate 0 0 "t" 1 oracleG 0 "hi" none none none
        stTwo).2.1.daily_cost_used = 0
    ∧ (generate 0 0 "t" 1 oracleG 0 "hi" none none none
        stTwo).2.1.usage_history.filter (fun r => r.success) = [] := by
  refine ⟨by decide, by decide, by decide, by decide, by decide, by decide⟩

/-! ### Claim C7 -/

lemma preferred_step_some_breaker (now : ℚ) (pref : Option Provider)
    (tt : Option String) (st : RouterState) (q : Provider)
    (h : (preferred_step now pref tt st).1 = some q) :
    breaker_open_pure now st q = false := by
  unfold preferred_step at h
  cases pref with
  | none => simp at h
  | some p =>
    dsimp only at h
    split at h
    · simp at h
    · split at h
      · simp at h
      · split at h
        · by_cases hbr : (is_circuit_breaker_open now st p).1 = true
          · rw [if_pos hbr] at h
            simp at h
          · rw [if_neg hbr] at h
            dsimp at h
            injection h with h
            subst h
            rw [← is_cb_open_fst]
            exact Bool.not_eq_true _ ▸ (Bool.of_not_eq_true hbr)
        · simp at h

lemma search_step_some_breaker (now : ℚ) (tt : Option String)
    (st : RouterState) (q : Provider)
    (h : (search_step now tt st).1 = some q) :
    q = Provider.perplexity ∧ breaker_open_pure now st q = false := by
  unfold search_step at h
  split at h
  · split at h
    · split at h
      · by_cases hbr : (is_circuit_breaker_open now st Provider.perplexity).1 = true
        · rw [if_pos hbr] at h
          simp at h
        · rw [if_neg hbr] at h
          dsimp at h
          injection h with h
          subst h
          refine ⟨rfl, ?_⟩
          rw [← is_cb_open_fst]
          exact Bool.of_not_eq_true hbr
      · simp at h
    · simp at h
  · simp at h

lemma priority_step_some_breaker (now : ℚ) (tt : Option String)
    (st : RouterState) (q : Provider)
    (h : (priority_step now tt st).1 = some q) :
    breaker_open_pure now st q = false := by
  rw [priority_step_fst] at h
  have hmem : q ∈ (if st.perplexity_search_only = true ∧ tt ≠ some "search" then
      (get_available_providers st).filter (fun p => decide (p ≠ Provider.perplexity))
    else get_available_providers st).filter
      (fun p => !breaker_open_pure now st p && under_rate_pure now st p) :=
    List.mem_of_mem_head? (by rw [h]; rfl)
  have hpred := (List.mem_filter.mp hmem).2
  have hnot := (Bool.and_eq_true _ _ ▸ hpred).1
  simpa using hnot

/-- A provider whose breaker check at `now` reports open is never returned by
`select_provider`, for any preference and task type. -/
lemma select_ne_of_breaker_open (now : ℚ) (pref : Option Provider)
    (tt : Option String) (st : RouterState) (p : Provider)
    (hopen : breaker_open_pure now st p = true) :
    (select_provider now pref tt st).1 ≠ some p := by
  intro hcontra
  unfold select_provider at hcontra
  rcases hps : preferred_step now pref tt st with ⟨f1, st1⟩
  rw [hps] at hcontra
  cases f1 with
  | some q =>
    dsimp at hcontra
    injection hcontra with hq
    subst hq
    have := preferred_step_some_breaker now pref tt st q (by rw [hps])
    rw [this] at hopen
    exact Bool.false_ne_true hopen
  | none =>
    dsimp at hcontra
    have hinv1 : breaker_open_pure now st1 p = breaker_open_pure now st p := by
      have := breaker_pure_after_preferred now pref tt st p
      rw [hps] at this
      exact this
    rcases hss : search_step now tt st1 with ⟨f2, st2⟩
    rw [hss] at hcontra
    cases f2 with
    | some q =>
      dsimp at hcontra
      injection hcontra with hq
      subst hq
      have hsb := search_step_some_breaker now tt st1 q (by rw [hss])
      rw [hinv1] at hsb
      rw [hsb.2] at hopen
      exact Bool.false_ne_true hopen
    | none =>
      dsimp at hcontra
      have hinv2 : breaker_open_pure now st2 p = breaker_open_pure now st p := by
        have h2 := breaker_pure_after_search now tt st1 p
        rw [hss] at h2
        rw [h2]
        exact hinv1
      have hpb := priority_step_some_breaker now tt st2 p hcontra
      rw [← hinv2, hpb] at hopen
      exact Bool.false_ne_true hopen

/-- C7: (i) `_record_error` bumps the consecutive-failure count and opens the
breaker — recording the open time — exactly when the new count reaches the
fixed threshold 5 (the timer is untouched below the threshold); (ii) while
the breaker check at `now` reports open, the provider is excluded from every
selection path regardless of preference; (iii) a check made more than the
fixed 300-second reset window after the open time lazily closes the breaker
and resets the provider's error count to zero. -/
theorem circuit_breaker_spec (now : ℚ) (now_iso : String) (st : RouterState)
    (p : Provider) :
    ((record_error now now_iso p st).error_counts p = st.error_counts p + 1)
    ∧ (circuit_breaker_threshold ≤ st.error_counts p + 1 →
        (record_error now now_iso p st).circuit_breaker_timers p = some now)
    ∧ (st.error_counts p + 1 < circuit_breaker_threshold →
        (record_error now now_iso p st).circuit_breaker_timers p
          = st.circuit_breaker_timers p)
    ∧ (breaker_open_pure now st p = true →
        ∀ (pref : Option Provider) (tt : Option String),
          (select_provider now pref tt st).1 ≠ some p)
    ∧ (∀ t : ℚ, st.circuit_breaker_timers p = some t →
        circuit_breaker_reset_time < now - t →
        is_circuit_breaker_open now st p
          = (false,
             { st with
                 circuit_breaker_timers :=
                   Function.update st.circuit_breaker_timers p none,
                 error_counts := Function.update st.error_counts p 0 })
        ∧ (is_circuit_breaker_open now st p).2.error_counts p = 0
        ∧ breaker_open_pure now st p = false) := by
  refine ⟨?_, ?_, ?_, ?_, ?_⟩
  · unfold record_error
    dsimp only
    split <;> simp [Function.update]
  · intro hge
    unfold record_error
    dsimp only
    rw [if_pos hge]
    simp [Function.update]
  · intro hlt
    unfold record_error
    dsimp only
    rw [if_neg (by omega)]
  · intro hopen pref tt
    exact select_ne_of_breaker_open now pref tt st p hopen
  · intro t ht hexp
    have hred : is_circuit_breaker_open now st p
        = (false,
           { st with
               circuit_breaker_timers :=
                 Function.update st.circuit_breaker_timers p none,
               error_counts := Function.update st.error_counts p 0 }) := by
      unfold is_circuit_breaker_open
      rw [ht]
      dsimp only
      rw [if_pos hexp]
    refine ⟨hred, ?_, ?_⟩
    · rw [hred]
      simp [Function.update]
    · unfold breaker_open_pure
      rw [ht]
      dsimp only
      rw [if_pos hexp]

/-- Witness for C7: with the breaker opened at time 0 and 5 recorded errors,
selection at time 10 refuses the provider even when preferred; a check at
time 400 (more than 300 seconds later) closes the breaker and resets the
error count; and an error recorded for a provider with a low count leaves
its breaker timer untouched. -/
theorem circuit_breaker_spec_witness :
    (select_provider 10 (some Provider.anthropic) none stBreaker).1
        ≠ some Provider.anthropic
    ∧ (is_circuit_breaker_open 400 stBreaker Provider.anthropic).2.error_counts
        Provider.anthropic = 0
    ∧ breaker_open_pure 400 stBreaker Provider.anthropic = false
    ∧ (record_error 0 "t" Provider.gemini stBreaker).circuit_breaker_timers
        Provider.gemini = stBreaker.circuit_breaker_timers Provider.gemini := by
  have hopen : breaker_open_pure 10 stBreaker Provider.anthropic = true := by
    norm_num [breaker_open_pure, stBreaker, baseState, circuit_breaker_reset_time]
  have ht : stBreaker.circuit_breaker_timers Provider.anthropic = some 0 := by decide
  have hexp : circuit_breaker_reset_time < (400 : ℚ) - 0 := by
    norm_num [circuit_breaker_reset_time]
  have hclose := (circuit_breaker_spec 400 "t" stBreaker Provider.anthropic).2.2.2.2
    0 ht hexp
  refine ⟨?_, hclose.2.1, hclose.2.2, ?_⟩
  · exact (circuit_breaker_spec 10 "t" stBreaker Provider.anthropic).2.2.2.1 hopen
      (some Provider.anthropic) none
  · exact (circuit_breaker_spec 0 "t" stBreaker Provider.gemini).2.2.1 (by decide)

/-! ### Claim C8 -/

lemma rpm_pos (p : Provider) : 0 < (rate_limits p).requests_per_minute := by
  cases p <;> decide

/-- For a timestamp list recorded in nondecreasing order (the router only ever
appends the current time), pruning from the front removes exactly the stale
entries. -/
lemma dropWhile_stale_eq_filter (now : ℚ) :
    ∀ l : List ℚ, l.Pairwise (· ≤ ·) →
      l.dropWhile (fun t => stale now t) = l.filter (fun t => !stale now t) := by
  intro l
  induction l with
  | nil => intro _; rfl
  | cons a l ih =>
    intro hp
    rw [List.pairwise_cons] at hp
    by_cases ha : stale now a = true
    · have hrec := ih hp.2
      rw [List.dropWhile_cons, List.filter_cons]
      simp [ha, hrec]
    · have hale : now - a ≤ 60 := by
        unfold stale at ha
        simpa using ha
      have hall : ∀ b ∈ l, (!stale now b) = true := by
        intro b hb
        have hab := hp.1 b hb
        unfold stale
        simp only [Bool.not_eq_true']
        simp only [decide_eq_false_iff_not]
        intro hgt
        linarith
      have hna : stale now a = false := Bool.of_not_eq_true ha
      rw [List.dropWhile_cons, List.filter_cons]
      simp [hna, List.filter_eq_self.mpr hall]

/-- C8: the rate-limit check prunes exactly the entries older than 60 seconds
from the provider's (chronologically ordered) timestamps before counting,
excludes the provider iff the remaining count meets or exceeds its
requests-per-minute ceiling, and admits the provider again once all recorded
timestamps are more than 60 seconds old. -/
theorem rate_limit_spec (now : ℚ) (st : RouterState) (p : Provider)
    (hsorted : (st.request_timestamps p).Pairwise (· ≤ ·)) :
    ((check_rate_limit now st p).2.request_timestamps p
        = (st.request_timestamps p).filter (fun t => !stale now t))
    ∧ ((check_rate_limit now st p).1 = false ↔
        (rate_limits p).requests_per_minute ≤
          ((st.request_timestamps p).filter (fun t => !stale now t)).length)
    ∧ ((∀ t ∈ st.request_timestamps p, now - t > 60) →
        (check_rate_limit now st p).1 = true) := by
  have hdrop := dropWhile_stale_eq_filter now (st.request_timestamps p) hsorted
  refine ⟨?_, ?_, ?_⟩
  · show Function.update st.request_timestamps p
        ((st.request_timestamps p).dropWhile (fun t => stale now t)) p = _
    rw [Function.update_same, hdrop]
  · show decide (((st.request_timestamps p).dropWhile (fun t => stale now t)).length
        < (rate_limits p).requests_per_minute) = false ↔ _
    rw [hdrop]
    simp [not_lt]
  · intro hall
    have hnil : (st.request_timestamps p).dropWhile (fun t => stale now t) = [] := by
      rw [List.dropWhile_eq_nil_iff]
      intro x hx
      unfold stale
      simpa using hall x hx
    show decide (((st.request_timestamps p).dropWhile (fun t => stale now t)).length
        < (rate_limits p).requests_per_minute) = true
    rw [hnil]
    simpa using rpm_pos p

/-- Witness for C8: at time 1000 with recorded timestamps [10, 20, 990, 995],
the two stale entries are pruned and the provider stays eligible. -/
theorem rate_limit_spec_witness :
    (check_rate_limit 1000 stStamps Provider.anthropic).2.request_timestamps
        Provider.anthropic = [(990 : ℚ), 995]
    ∧ (check_rate_limit 1000 stStamps Provider.anthropic).1 = true := by
  have h := rate_limit_spec 1000 stStamps Provider.anthropic (by decide)
  have h10 : stale 1000 10 = true := by norm_num [stale]
  have h20 : stale 1000 20 = true := by norm_num [stale]
  have h990 : stale 1000 990 = false := by norm_num [stale]
  have h995 : stale 1000 995 = false := by norm_num [stale]
  have hfilter : (stStamps.request_timestamps Provider.anthropic).filter
      (fun t => !stale 1000 t) = [(990 : ℚ), 995] := by
    show List.filter (fun t => !stale 1000 t) [(10 : ℚ), 20, 990, 995] = _
    simp [List.filter_cons, h10, h20, h990, h995]
  constructor
  · rw [h.1, hfilter]
  · rcases hb : (check_rate_limit 1000 stStamps Provider.anthropic).1
    · exfalso
      have hge := h.2.1.mp hb
      rw [hfilter] at hge
      exact absurd hge (by decide)
    · rfl

/-! ### Claim C9 -/

/-- C9 (amended): a provider call that succeeds inside the retry loop returns
`Success` whose reported `estimated_cost` is `(estimatedTokens / 1e6) * 3.0`
— the anthropic rate hardcoded regardless of the selected provider — while
the cost accounted against `daily_cost_used` uses the selected provider's
rate from the static per-million table, both over
`estimatedTokens = maxTokens or 4096`. -/
theorem cost_accounting_formula (now : ℚ) (now_iso : String)
    (oracle : Nat → Provider → CallOutcome) (p : Provider)
    (max_tokens : Option Nat) (remaining retry k : Nat) (st : RouterState)
    (text : String) (hok : oracle k p = CallOutcome.ok text) :
    retry_loop now now_iso oracle p max_tokens (remaining + 1) retry k st
      = (some { provider := p, result := text, timestamp := now_iso,
                retries := some retry,
                estimated_cost :=
                  some (((estimated_tokens max_tokens : ℚ) / 1000000) * 3) },
         record_success now now_iso p max_tokens st, k + 1)
    ∧ (record_success now now_iso p max_tokens st).daily_cost_used
        = st.daily_cost_used
          + ((estimated_tokens max_tokens : ℚ) / 1000000) * cost_per_million p := by
  constructor
  · simp only [retry_loop]
    rw [hok]
  · unfold record_success record_cost
    dsimp only

/-- Witness for C9: a first-attempt success on gemini. -/
theorem cost_accounting_formula_witness :
    retry_loop 0 "t" oracleOk Provider.gemini (some 1000000) 3 0 0 stGemini
      = (some { provider := Provider.gemini, result := "ok", timestamp := "t",
                retries := some 0,
                estimated_cost :=
                  some (((estimated_tokens (some 1000000) : ℚ) / 1000000) * 3) },
         record_success 0 "t" Provider.gemini (some 1000000) stGemini, 1) := by
  exact (cost_accounting_formula 0 "t" oracleOk Provider.gemini (some 1000000)
    2 0 0 stGemini "ok" (by decide)).1

/-- Counterexample to C9 as stated: a successful 1,000,000-token gemini call
reports `estimated_cost` 3 USD (the hardcoded 3.0 rate) while accounting
1.25 USD (gemini's table rate) against `daily_cost_used`; the claim says both
use the selected provider's rate. -/
theorem cost_report_counterexample :
    ((generate 0 0 "t" 0 oracleOk 0 "hi" (some 1000000) none none stGemini).1
        = GenResult.success
            { provider := Provider.gemini, result := "ok", timestamp := "t",
              retries := some 0, estimated_cost := some 3 })
    ∧ (generate 0 0 "t" 0 oracleOk 0 "hi" (some 1000000) none none
        stGemini).2.1.daily_cost_used = 5 / 4
    ∧ cost_per_million Provider.gemini = 5 / 4
    ∧ (3 : ℚ) ≠ 5 / 4 := by
  have het : estimated_tokens (some 1000000) = 1000000 := rfl
  have hgen : generate 0 0 "t" 0 oracleOk 0 "hi" (some 1000000) none none stGemini
      = (GenResult.success
          { provider := Provider.gemini, result := "ok", timestamp := "t",
            retries := some 0,
            estimated_cost :=
              some (((estimated_tokens (some 1000000) : ℚ) / 1000000) * 3) },
         record_success 0 "t" Provider.gemini (some 1000000)
           (check_daily_budget 0 (select_provider 0 none none stGemini).2).2, 1) := rfl
  rw [hgen]
  refine ⟨?_, ?_, by norm_num [cost_per_million], by norm_num⟩
  · dsimp only
    rw [het]
    norm_num
  · show (record_success 0 "t" Provider.gemini (some 1000000)
        (check_daily_budget 0 (select_provider 0 none none stGemini).2).2).daily_cost_used
        = 5 / 4
    unfold record_success record_cost
    dsimp only
    show (0 : ℚ) + ((estimated_tokens (some 1000000) : ℚ) / 1000000)
        * cost_per_million Provider.gemini = 5 / 4
    rw [het]
    norm_num [cost_per_million]

/-! ### Claim C10 -/

lemma select_provider_pc (now : ℚ) (pref : Option Provider)
    (tt : Option String) (st : RouterState) :
    (select_provider now pref tt st).2.providers_config = st.providers_config := by
  obtain ⟨T, E, R, h⟩ := select_provider_snd_shape now pref tt st
  rw [h, setSel_providers_config]

lemma check_daily_budget_pc (today : Nat) (st : RouterState) :
    (check_daily_budget today st).2.providers_config = st.providers_config := by
  rw [check_daily_budget_snd]
  split <;> rfl

lemma record_error_pc (now : ℚ) (iso : String) (p : Provider)
    (st : RouterState) :
    (record_error now iso p st).providers_config = st.providers_config := by
  unfold record_error
  dsimp only
  split <;> rfl

lemma record_success_pc (now : ℚ) (iso : String) (p : Provider)
    (mt : Option Nat) (st : RouterState) :
    (record_success now iso p mt st).providers_config = st.providers_config := rfl

lemma retry_loop_pc (now : ℚ) (iso : String)
    (oracle : Nat → Provider → CallOutcome) (p : Provider) (mt : Option Nat) :
    ∀ (remaining retry k : Nat) (st : RouterState),
      (retry_loop now iso oracle p mt remaining retry k st).2.1.providers_config
        = st.providers_config := by
  intro remaining
  induction remaining with
  | zero => intro retry k st; rfl
  | succ n ih =>
    intro retry k st
    simp only [retry_loop]
    cases oracle k p with
    | ok text => exact record_success_pc now iso p mt st
    | fail =>
      by_cases hn : n = 0
      · simp only [if_pos hn]
        exact record_error_pc now iso p st
      · simp only [if_neg hn]
        exact ih (retry + 1) (k + 1) st

lemma fallback_pc (iso : String) (oracle : Nat → Provider → CallOutcome) :
    ∀ (fuel : Nat) (failed : Provider) (k : Nat) (st : RouterState),
      (fallback_generate iso oracle fuel failed k st).2.1.providers_config
        = st.providers_config := by
  intro fuel
  induction fuel with
  | zero => intro failed k st; rfl
  | succ n ih =>
    intro failed k st
    simp only [fallback_generate]
    rcases havail : (get_available_providers st).filter
        (fun p => decide (p ≠ failed)) with _ | ⟨next, rest⟩
    · rfl
    · dsimp only
      rcases horacle : oracle k next with text | _
      · rfl
      · dsimp only
        split
        · exact ih next (k + 1) st
        · rfl

lemma generate_pc (now : ℚ) (today : Nat) (iso : String) (fuel : Nat)
    (oracle : Nat → Provider → CallOutcome) (k : Nat) (prompt : String)
    (mt : Option Nat) (pref : Option Provider) (tt : Option String)
    (st : RouterState) :
    (generate now today iso fuel oracle k prompt mt pref tt st).2.1.providers_config
      = st.providers_config := by
  unfold generate
  rcases hs : select_provider now pref tt st with ⟨f, st1⟩
  have h1 : st1.providers_config = st.providers_config := by
    have h := select_provider_pc now pref tt st
    rw [hs] at h
    exact h
  cases f with
  | none => exact h1
  | some p =>
    dsimp only
    by_cases hdry : st1.dry_run = true
    · rw [if_pos hdry]
      exact h1
    · rw [if_neg hdry]
      rcases hb : check_daily_budget today st1 with ⟨ok, st2⟩
      have h2 : st2.providers_config = st.providers_config := by
        have h := check_daily_budget_pc today st1
        rw [hb] at h
        dsimp at h
        rw [h]
        exact h1
      cases ok with
      | false => exact h2
      | true =>
        dsimp only
        rcases hrl : retry_loop now iso oracle p mt st2.max_retries 0 k st2
          with ⟨s3, st3, k3⟩
        have h3 : st3.providers_config = st.providers_config := by
          have h := retry_loop_pc now iso oracle p mt st2.max_retries 0 k st2
          rw [hrl] at h
          dsimp at h
          rw [h]
          exact h2
        cases s3 with
        | some s => exact h3
        | none =>
          dsimp only
          have h4 := fallback_pc iso oracle fuel p k3 st3
          rw [h4]
          exact h3

lemma set_priority_pc (l : List Provider) (st : RouterState) :
    (set_priority l st).providers_config = st.providers_config := rfl

lemma enable_provider_pc (p : Provider) (st : RouterState) :
    (enable_provider p st).providers_config = st.providers_config := by
  unfold enable_provider
  split
  · dsimp only
    split <;> rfl
  · rfl

lemma disable_provider_pc (p : Provider) (st : RouterState) :
    (disable_provider p st).providers_config = st.providers_config := by
  unfold disable_provider
  dsimp only
  split <;> split <;> rfl

/-- C10: `providers_config` (including each provider's `enabled` flag) is
computed once at construction and left unchanged by every modelled operation;
consequently, for a router constructed with the OpenAI opt-in false,
`enable_provider "openai"` sets the opt-in flag and appends openai to the
priority list, yet `get_available_providers` still excludes openai because
its construction-time `enabled` flag is false. -/
theorem providers_config_immutable :
    (∀ (now : ℚ) (pref : Option Provider) (tt : Option String)
        (st : RouterState),
      (select_provider now pref tt st).2.providers_config = st.providers_config)
    ∧ (∀ (now : ℚ) (today : Nat) (iso : String) (fuel : Nat)
        (oracle : Nat → Provider → CallOutcome) (k : Nat) (prompt : String)
        (mt : Option Nat) (pref : Option Provider) (tt : Option String)
        (st : RouterState),
        (generate now today iso fuel oracle k prompt mt pref tt
          st).2.1.providers_config = st.providers_config)
    ∧ (∀ (now : ℚ) (iso : String) (p : Provider) (st : RouterState),
        (record_error now iso p st).providers_config = st.providers_config)
    ∧ (∀ (l : List Provider) (st : RouterState),
        (set_priority l st).providers_config = st.providers_config)
    ∧ (∀ (p : Provider) (st : RouterState),
        (enable_provider p st).providers_config = st.providers_config)
    ∧ (∀ (p : Provider) (st : RouterState),
        (disable_provider p st).providers_config = st.providers_config)
    ∧ (∀ (env : Env) (parg : Option (List Provider)) (mr today : Nat),
        env.openai_enabled_env = false →
        Provider.openai ∉ (mkRouter env parg false mr today).priority →
        (enable_provider Provider.openai
            (mkRouter env parg false mr today)).enable_openai = true
        ∧ Provider.openai ∈ (enable_provider Provider.openai
            (mkRouter env parg false mr today)).priority
        ∧ Provider.openai ∉ get_available_providers
            (enable_provider Provider.openai (mkRouter env parg false mr today))) := by
  refine ⟨select_provider_pc, generate_pc, record_error_pc, set_priority_pc,
    enable_provider_pc, disable_provider_pc, ?_⟩
  intro env parg mr today henv hnotmem
  have hso : enable_provider Provider.openai (mkRouter env parg false mr today)
      = { mkRouter env parg false mr today with
            enable_openai := true,
            priority :=
              (mkRouter env parg false mr today).priority ++ [Provider.openai] } := by
    unfold enable_provider
    rw [if_pos rfl]
    dsimp only
    rw [if_neg hnotmem]
  have hpc : (mkRouter env parg false mr today).providers_config Provider.openai
      = load_provider_configs env false Provider.openai := by
    unfold mkRouter
    dsimp only
    rw [henv]
    rfl
  refine ⟨by rw [hso], by rw [hso]; simp, ?_⟩
  rw [hso]
  unfold get_available_providers
  intro hmem
  have hen := (List.mem_filter.mp hmem).2
  dsimp at hen
  rw [hpc] at hen
  simp [load_provider_configs] at hen

/-- Witness for C10: the concrete environment `envW` (openai credential
present, opt-in absent): after `enable_provider`, openai is in the priority
list but still not available. -/
theorem providers_config_immutable_witness :
    (enable_provider Provider.openai (mkRouter envW none false 3 0)).enable_openai
        = true
    ∧ Provider.openai ∈ (enable_provider Provider.openai
        (mkRouter envW none false 3 0)).priority
    ∧ Provider.openai ∉ get_available_providers
        (enable_provider Provider.openai (mkRouter envW none false 3 0)) := by
  exact providers_config_immutable.2.2.2.2.2.2 envW none 3 0 (by decide) (by decide)

end LLMRouter
